import Mathlib

/-!
# Verification of `block_test_helpers.mocha.js` (blockly-samples dev-tools)

A shallow embedding of the mocha test-authoring helpers for Blockly block
plugins: the code-generation test callback factory
(`createCodeGenerationTestFn_`), the serialization test callbacks
(`createXmlToBlockTestCallback`, `createXmlRoundTripTestCallback`) and the
`runSerializationTestSuite` setup/teardown discipline that stubs the
Blockly unique-id generator with sinon.

External collaborators (the Blockly XML engine, generators, workspaces and
sinon's stub registry) are modelled abstractly: XML/generator operations are
fields of an environment record, and the callbacks are pure functions that
return the trace of calls and assertions the JavaScript callback performs.
-/

namespace BlockTestHelpers

/-- A unique-id generator function: call index to generated id string.
Models `Blockly.utils.genUid` / `Blockly.utils.idGenerator.TEST_ONLY.genUid`. -/
abbrev GenUidFn := Nat → String

/-- The value returned by `generator.blockToCode(block)`: either a plain code
string or an array pair `[code, order]` (cf. `Array.isArray(code)` at line 116
of the source). -/
inductive JsCode where
  | str (s : String)
  | arr (code : String) (order : Int)
  deriving DecidableEq, Repr

/-- The `expectedCode` field of a `CodeGenerationTestCase`: the JavaScript
value is either a string (`typeof testCase.expectedCode === 'string'`) or a
regular-expression pattern. -/
inductive ExpectedCode where
  | str (s : String)
  | pattern (p : String)
  deriving DecidableEq, Repr

/-- A chai assertion performed by a test callback. `equal` is
`assert.equal` on code/xml strings, `matches` is `assert.match` against a
pattern, and `equalOrder` is the `assert.equal(innerOrder,
testCase.expectedInnerOrder)` call (whose actual value may be `undefined`,
modelled as `none`). -/
inductive Assertion where
  | equal (actual expected : String)
  | matches (actual pattern : String)
  | equalOrder (actual : Option Int) (expected : Int)
  deriving DecidableEq, Repr

/-- A call made on the generator object by the code-generation callback. -/
inductive GenCall where
  | init
  | workspaceToCode
  | blockToCode
  deriving DecidableEq, Repr

/-- The external code generator consumed by `createCodeGenerationTestFn_`:
`init(workspace)` (side effect only), `blockToCode(block)` and
`workspaceToCode(workspace)`. -/
structure Generator (Block Workspace : Type) where
  workspaceToCode : Workspace → String
  blockToCode : Block → JsCode

/-- `CodeGenerationTestCase` from the source: `expectedCode`,
`useWorkspaceToCode` (a JavaScript `boolean|undefined`, used only for its
truthiness, hence `Bool`), `expectedInnerOrder` (`number|undefined`) and
`createBlock(workspace)`. -/
structure CodeGenerationTestCase (Block Workspace : Type) where
  expectedCode : ExpectedCode
  useWorkspaceToCode : Bool
  expectedInnerOrder : Option Int
  createBlock : Workspace → Block

/-- The observable outcome of one run of the code-generation test callback:
the generator calls it made, the final `code` string, the unpacked
`innerOrder` local (`undefined` = `none`), and the chai assertions it issued,
in order. -/
structure CodeGenResult where
  calls : List GenCall
  code : String
  innerOrder : Option Int
  assertions : List Assertion
  deriving DecidableEq, Repr

/-- Shallow embedding of `createCodeGenerationTestFn_` (source lines
105-130): build the block, compute `code` (and `innerOrder` when
`blockToCode` returned an array pair), pick `assert.equal` vs `assert.match`
by the runtime type of `expectedCode`, and issue the inner-order assertion
exactly when not in whole-workspace mode and `expectedInnerOrder` is not
`undefined`. -/
def createCodeGenerationTestFn {Block Workspace : Type}
    (generator : Generator Block Workspace)
    (testCase : CodeGenerationTestCase Block Workspace)
    (workspace : Workspace) : CodeGenResult :=
  let block := testCase.createBlock workspace
  let (calls, code, innerOrder) :=
    if testCase.useWorkspaceToCode then
      ([GenCall.workspaceToCode], generator.workspaceToCode workspace,
        (none : Option Int))
    else
      match generator.blockToCode block with
      | JsCode.arr c o => ([GenCall.init, GenCall.blockToCode], c, some o)
      | JsCode.str s => ([GenCall.init, GenCall.blockToCode], s, none)
  let codeAssert :=
    match testCase.expectedCode with
    | ExpectedCode.str s => Assertion.equal code s
    | ExpectedCode.pattern p => Assertion.matches code p
  let orderAsserts :=
    match testCase.useWorkspaceToCode, testCase.expectedInnerOrder with
    | false, some o => [Assertion.equalOrder innerOrder o]
    | _, _ => []
  { calls := calls, code := code, innerOrder := innerOrder,
    assertions := codeAssert :: orderAsserts }

/-- Whether an assertion is the inner-order assertion. -/
def Assertion.isOrderAssert : Assertion → Bool
  | Assertion.equalOrder _ _ => true
  | _ => false

/-! ## Serialization helpers -/

/-- The external Blockly surface consumed by the serialization callbacks.
`hasIdGeneratorTestOnly` models the truthiness of
`Blockly.utils.idGenerator && Blockly.utils.idGenerator.TEST_ONLY` (source
lines 200-201). The XML operations take the unique-id generator currently in
effect, since `domToBlock` consumes fresh ids for blocks whose xml carries
none. -/
structure BlocklyEnv (Dom Block Workspace : Type) where
  hasIdGeneratorTestOnly : Bool
  textToDom : String → Dom
  domToBlock : GenUidFn → Dom → Workspace → Block
  blockToDom : Block → Dom
  domToPrettyText : Dom → String

/-- `SerializationTestCase` from the source: the `xml` string, the optional
`expectedXml` (`string|undefined`, hence `Option String`) and the
`assertBlockStructure(block)` checker, modelled by its pass/fail verdict. -/
structure SerializationTestCase (Block : Type) where
  xml : String
  expectedXml : Option String
  assertBlockStructure : Block → Bool

/-- JavaScript `a || b` where `a` is a `string|undefined` value: the
right-hand side is taken whenever `a` is falsy, i.e. `undefined` or the empty
string. Embeds `testCase.expectedXml || testCase.xml` (source line 179). -/
def jsOrString (a : Option String) (b : String) : String :=
  match a with
  | none => b
  | some s => if s = "" then b else s

/-- One step observed during a serialization test callback. -/
inductive SerEvent (Dom Block : Type) where
  | parsedText (text : String) (dom : Dom)
  | convertedToBlock (dom : Dom) (block : Block)
  | structureAsserted (block : Block) (passed : Bool)
  | serializedBlock (block : Block) (dom : Dom)
  | prettyPrinted (dom : Dom) (text : String)
  | asserted (a : Assertion)

/-- Shallow embedding of `createXmlToBlockTestCallback` (source lines
160-166): parse the case's xml text to a DOM, convert the DOM to a block on
the current workspace, and invoke the case's `assertBlockStructure` on that
block. `genUid` is the unique-id function in effect when the callback runs. -/
def createXmlToBlockTestCallback {Dom Block Workspace : Type}
    (env : BlocklyEnv Dom Block Workspace)
    (testCase : SerializationTestCase Block)
    (workspace : Workspace) (genUid : GenUidFn) : List (SerEvent Dom Block) :=
  let dom := env.textToDom testCase.xml
  let block := env.domToBlock genUid dom workspace
  [SerEvent.parsedText testCase.xml dom,
   SerEvent.convertedToBlock dom block,
   SerEvent.structureAsserted block (testCase.assertBlockStructure block)]

/-- Shallow embedding of `createXmlRoundTripTestCallback` (source lines
172-182): parse the case's xml to a block, serialize the block back to
pretty-printed xml text, and `assert.equal` that text against
`testCase.expectedXml || testCase.xml`. -/
def createXmlRoundTripTestCallback {Dom Block Workspace : Type}
    (env : BlocklyEnv Dom Block Workspace)
    (testCase : SerializationTestCase Block)
    (workspace : Workspace) (genUid : GenUidFn) : List (SerEvent Dom Block) :=
  let dom := env.textToDom testCase.xml
  let block := env.domToBlock genUid dom workspace
  let outDom := env.blockToDom block
  let generatedXml := env.domToPrettyText outDom
  let expectedXml := jsOrString testCase.expectedXml testCase.xml
  [SerEvent.parsedText testCase.xml dom,
   SerEvent.convertedToBlock dom block,
   SerEvent.serializedBlock block outDom,
   SerEvent.prettyPrinted outDom generatedXml,
   SerEvent.asserted (Assertion.equal generatedXml expectedXml)]

/-- The parse-then-serialize round trip performed inside the round-trip
callback (lines 174-178): text to DOM to block to DOM to pretty text. -/
def roundTripText {Dom Block Workspace : Type}
    (env : BlocklyEnv Dom Block Workspace) (workspace : Workspace)
    (genUid : GenUidFn) (text : String) : String :=
  env.domToPrettyText
    (env.blockToDom (env.domToBlock genUid (env.textToDom text) workspace))

/-- The expected side of the `assert.equal` in a list of round-trip events,
when present. -/
def assertedEqualExpected {Dom Block : Type} :
    List (SerEvent Dom Block) → Option String
  | [] => none
  | SerEvent.asserted (Assertion.equal _ expected) :: _ => some expected
  | _ :: rest => assertedEqualExpected rest

/-! ## The sinon stub registry and the round-trip setup/teardown cycle -/

/-- A stubbable process-global slot. The round-trip setup stubs
`Blockly.utils.idGenerator.TEST_ONLY.genUid` when that object exists and
`Blockly.utils.genUid` otherwise; `other n` stands for any further slot some
other code may have stubbed through the same sinon sandbox. -/
inductive Target where
  | testOnlyGenUid
  | utilsGenUid
  | other (n : Nat)
  deriving DecidableEq, Repr

/-- Process state as sinon sees it: the current value of every stubbable
slot, plus sinon's restore list recording, most recent first, each installed
stub's target and the original value it displaced. -/
structure SinonState where
  slots : Target → GenUidFn
  undo : List (Target × GenUidFn)

/-- `sinon.stub(obj, name).returns(...)`: record the displaced original on
the restore list and install the replacement. -/
def sinonStub (t : Target) (f : GenUidFn) (s : SinonState) : SinonState :=
  { slots := Function.update s.slots t f, undo := (t, s.slots t) :: s.undo }

/-- `sinon.restore()`: put back the original value recorded for every active
stub, most recent stub first, and empty the restore list. -/
def sinonRestore (s : SinonState) : SinonState :=
  { slots := s.undo.foldl (fun g p => Function.update g p.1 p.2) s.slots,
    undo := [] }

/-- The slot the round-trip `setup` stubs, per the branch at source lines
200-207. -/
def genUidTarget (hasTestOnly : Bool) : Target :=
  if hasTestOnly then Target.testOnlyGenUid else Target.utilsGenUid

/-- The `setup` hook of the `xml round-trip` suite (source lines 188-208):
stub the applicable genUid slot to return `"1"` for every call. -/
def roundTripSetup (hasTestOnly : Bool) (s : SinonState) : SinonState :=
  sinonStub (genUidTarget hasTestOnly) (fun _ => "1") s

/-- The `teardown` hook of the `xml round-trip` suite (source lines
210-212): `sinon.restore()`. -/
def roundTripTeardown (s : SinonState) : SinonState :=
  sinonRestore s

/-- The unique-id function in effect for Blockly: `genUid` is a wrapper
around `TEST_ONLY.genUid` when the latter exists, so the effective function
is whichever slot the setup hook targets. -/
def effectiveGenUid (hasTestOnly : Bool) (s : SinonState) : GenUidFn :=
  s.slots (genUidTarget hasTestOnly)

/-- What one `xml round-trip` mocha test records: the genUid function in
effect while the callback ran, the callback's event trace, and the process
state after teardown. -/
structure RtCaseRecord (Dom Block : Type) where
  genUidDuring : GenUidFn
  events : List (SerEvent Dom Block)
  stateAfter : SinonState

/-- Modelled from the spec: the generic case runner
(`common_test_helpers.mocha.js`, not part of this source tree) together with
mocha's hook scheduling — "before each round-trip case, replace the
block/identifier generator's unique-ID function ...; restore the original
implementation after each case". Runs setup, then the round-trip callback,
then teardown, for one case. -/
def runRoundTripCase {Dom Block Workspace : Type}
    (env : BlocklyEnv Dom Block Workspace) (workspace : Workspace)
    (testCase : SerializationTestCase Block) (s : SinonState) :
    RtCaseRecord Dom Block :=
  let s1 := roundTripSetup env.hasIdGeneratorTestOnly s
  let g := effectiveGenUid env.hasIdGeneratorTestOnly s1
  { genUidDuring := g,
    events := createXmlRoundTripTestCallback env testCase workspace g,
    stateAfter := roundTripTeardown s1 }

/-- Modelled from the spec: sequential execution of every `xml round-trip`
case by the generic runner, each wrapped in its setup/teardown pair, threading
the process state. -/
def runRoundTripCases {Dom Block Workspace : Type}
    (env : BlocklyEnv Dom Block Workspace) (workspace : Workspace) :
    List (SerializationTestCase Block) → SinonState →
    List (RtCaseRecord Dom Block)
  | [], _ => []
  | tc :: rest, s =>
    let r := runRoundTripCase env workspace tc s
    r :: runRoundTripCases env workspace rest r.stateAfter

/-- What one `xmlToBlock` mocha test records: the genUid function in effect
(no hooks run in that suite) and the callback's event trace. -/
structure XtbCaseRecord (Dom Block : Type) where
  genUidDuring : GenUidFn
  events : List (SerEvent Dom Block)

/-- The whole `Serialization` suite run: the `xmlToBlock` sub-suite's records
followed by the `xml round-trip` sub-suite's records. -/
structure SuiteRun (Dom Block : Type) where
  xmlToBlockRuns : List (XtbCaseRecord Dom Block)
  roundTripRuns : List (RtCaseRecord Dom Block)

/-- Modelled from the spec: `runSerializationTestSuite` (source lines
154-217) as executed by mocha — the `xmlToBlock` suite has no hooks and runs
every case against the ambient process state; the `xml round-trip` suite runs
every case between its setup and teardown hooks. -/
def runSerializationTestSuite {Dom Block Workspace : Type}
    (env : BlocklyEnv Dom Block Workspace) (workspace : Workspace)
    (testCases : List (SerializationTestCase Block)) (s : SinonState) :
    SuiteRun Dom Block :=
  { xmlToBlockRuns := testCases.map (fun tc =>
      { genUidDuring := effectiveGenUid env.hasIdGeneratorTestOnly s,
        events := createXmlToBlockTestCallback env tc workspace
          (effectiveGenUid env.hasIdGeneratorTestOnly s) }),
    roundTripRuns := runRoundTripCases env workspace testCases s }

/-! ## Concrete instances used by witnesses and counterexamples -/

/-- An identity-like Blockly environment over string doms and blocks: parsing
and serialization are the identity, so the round trip returns its input. -/
def exEnv : BlocklyEnv String String Unit :=
  { hasIdGeneratorTestOnly := true,
    textToDom := fun s => s,
    domToBlock := fun _ d _ => d,
    blockToDom := fun b => b,
    domToPrettyText := fun d => d }

/-- An environment whose serializer appends a normalization marker, so each
round trip grows the text: the round trip is not idempotent. -/
def exEnvGrow : BlocklyEnv String String Unit :=
  { hasIdGeneratorTestOnly := true,
    textToDom := fun s => s,
    domToBlock := fun _ d _ => d,
    blockToDom := fun b => b ++ "!",
    domToPrettyText := fun d => d }

/-- A serialization case whose `expectedXml` is present but empty. -/
def exCaseEmptyExpected : SerializationTestCase String :=
  { xml := "<b/>", expectedXml := some "", assertBlockStructure := fun _ => true }

/-- A serialization case with no `expectedXml`. -/
def exCaseNoExpected : SerializationTestCase String :=
  { xml := "<b/>", expectedXml := none, assertBlockStructure := fun _ => true }

/-- A serialization case for `exEnvGrow` whose `expectedXml` matches the
output of one round trip. -/
def exCaseGrow : SerializationTestCase String :=
  { xml := "<a/>", expectedXml := some "<a/>!", assertBlockStructure := fun _ => true }

/-- A generator over string blocks whose blockToCode returns a pair. -/
def exGenPair : Generator String Unit :=
  { workspaceToCode := fun _ => "ws-code",
    blockToCode := fun b => JsCode.arr b 3 }

/-- A generator over string blocks whose blockToCode returns a plain string. -/
def exGenStr : Generator String Unit :=
  { workspaceToCode := fun _ => "ws-code",
    blockToCode := fun b => JsCode.str b }

/-- A code-generation case in single-block mode with an expected order. -/
def exCodeCase : CodeGenerationTestCase String Unit :=
  { expectedCode := ExpectedCode.str "5",
    useWorkspaceToCode := false,
    expectedInnerOrder := some 3,
    createBlock := fun _ => "5" }

/-- A process state with no active stub and a fixed original genUid. -/
def exState : SinonState :=
  { slots := fun _ _ => "orig", undo := [] }

/-- A process state carrying one active stub installed by other code on a
slot unrelated to the id generator. -/
def exStateForeign : SinonState :=
  { slots := fun _ _ => "cur", undo := [(Target.other 0, fun _ => "foreignOrig")] }

/-! ## Theorems about the code-generation callback -/

/-- C2: For every code-generation test case, the test callback compares the
generated code against `expectedCode` using exact string equality
(`assert.equal`) when `expectedCode` is a string, and using the
pattern-match assertion (`assert.match`) otherwise. -/
theorem codeGen_assert_kind_follows_expectedCode_type {Block Workspace : Type}
    (generator : Generator Block Workspace)
    (testCase : CodeGenerationTestCase Block Workspace)
    (workspace : Workspace) :
    (createCodeGenerationTestFn generator testCase workspace).assertions.head? =
      some (match testCase.expectedCode with
        | ExpectedCode.str s =>
            Assertion.equal
              (createCodeGenerationTestFn generator testCase workspace).code s
        | ExpectedCode.pattern p =>
            Assertion.matches
              (createCodeGenerationTestFn generator testCase workspace).code p) := by
  unfold createCodeGenerationTestFn
  cases h : testCase.useWorkspaceToCode <;>
    cases testCase.expectedCode <;>
    cases generator.blockToCode (testCase.createBlock workspace) <;>
    simp [h]

/-- C4: For every code-generation test case, if `useWorkspaceToCode` is set
the callback calls only `workspaceToCode` (no `init`); otherwise it calls
`init` and then `blockToCode`, and the code comes from the corresponding
generator call. -/
theorem codeGen_mode_selects_generator_calls {Block Workspace : Type}
    (generator : Generator Block Workspace)
    (testCase : CodeGenerationTestCase Block Workspace)
    (workspace : Workspace) :
    ((createCodeGenerationTestFn generator testCase workspace).calls =
      if testCase.useWorkspaceToCode then [GenCall.workspaceToCode]
      else [GenCall.init, GenCall.blockToCode]) ∧
    ((createCodeGenerationTestFn generator testCase workspace).code =
      if testCase.useWorkspaceToCode then generator.workspaceToCode workspace
      else match generator.blockToCode (testCase.createBlock workspace) with
        | JsCode.str s => s
        | JsCode.arr c _ => c) ∧
    (GenCall.init ∈ (createCodeGenerationTestFn generator testCase workspace).calls ↔
      testCase.useWorkspaceToCode = false) := by
  cases h : testCase.useWorkspaceToCode <;>
    cases hbc : generator.blockToCode (testCase.createBlock workspace) <;>
    simp [createCodeGenerationTestFn, h, hbc]

/-- C5: In single-block mode, if `blockToCode` returns an array pair the
callback takes the code from the first component and the inner order from the
second; if it returns a plain string the inner order stays `undefined`. -/
theorem codeGen_pair_unpacking {Block Workspace : Type}
    (generator : Generator Block Workspace)
    (testCase : CodeGenerationTestCase Block Workspace)
    (workspace : Workspace)
    (h : testCase.useWorkspaceToCode = false) :
    (∀ c o, generator.blockToCode (testCase.createBlock workspace) = JsCode.arr c o →
      (createCodeGenerationTestFn generator testCase workspace).code = c ∧
      (createCodeGenerationTestFn generator testCase workspace).innerOrder = some o) ∧
    (∀ s, generator.blockToCode (testCase.createBlock workspace) = JsCode.str s →
      (createCodeGenerationTestFn generator testCase workspace).code = s ∧
      (createCodeGenerationTestFn generator testCase workspace).innerOrder = none) := by
  constructor
  · intro c o hc
    simp [createCodeGenerationTestFn, h, hc]
  · intro s hs
    simp [createCodeGenerationTestFn, h, hs]

/-- Witness for C5 at a concrete generator, case and workspace. -/
theorem codeGen_pair_unpacking_witness :
    exCodeCase.useWorkspaceToCode = false ∧
    ((∀ c o, exGenPair.blockToCode (exCodeCase.createBlock ()) = JsCode.arr c o →
      (createCodeGenerationTestFn exGenPair exCodeCase ()).code = c ∧
      (createCodeGenerationTestFn exGenPair exCodeCase ()).innerOrder = some o) ∧
    (∀ s, exGenPair.blockToCode (exCodeCase.createBlock ()) = JsCode.str s →
      (createCodeGenerationTestFn exGenPair exCodeCase ()).code = s ∧
      (createCodeGenerationTestFn exGenPair exCodeCase ()).innerOrder = none)) :=
  ⟨rfl, codeGen_pair_unpacking exGenPair exCodeCase () rfl⟩

/-- C6: The callback issues an inner-order assertion exactly when the case is
not in whole-workspace mode and `expectedInnerOrder` is not `undefined`, and
then it compares the unpacked order against `expectedInnerOrder`. -/
theorem codeGen_order_assertion_condition {Block Workspace : Type}
    (generator : Generator Block Workspace)
    (testCase : CodeGenerationTestCase Block Workspace)
    (workspace : Workspace) :
    (createCodeGenerationTestFn generator testCase workspace).assertions.filter
        Assertion.isOrderAssert =
      match testCase.useWorkspaceToCode, testCase.expectedInnerOrder with
      | false, some o =>
          [Assertion.equalOrder
            (createCodeGenerationTestFn generator testCase workspace).innerOrder o]
      | _, _ => [] := by
  unfold createCodeGenerationTestFn
  cases h : testCase.useWorkspaceToCode <;>
    cases ho : testCase.expectedInnerOrder <;>
    cases testCase.expectedCode <;>
    cases generator.blockToCode (testCase.createBlock workspace) <;>
    simp [h, ho, Assertion.isOrderAssert]

/-! ## Theorems about the serialization callbacks -/

/-- C7: For every serialization test case, the xmlToBlock callback parses the
case's `xml` text into a DOM, converts the DOM to a block bound to the
current workspace, and invokes the case's `assertBlockStructure` on that
block. -/
theorem xmlToBlock_callback_structure {Dom Block Workspace : Type}
    (env : BlocklyEnv Dom Block Workspace)
    (testCase : SerializationTestCase Block)
    (workspace : Workspace) (genUid : GenUidFn) :
    createXmlToBlockTestCallback env testCase workspace genUid =
      [SerEvent.parsedText testCase.xml (env.textToDom testCase.xml),
       SerEvent.convertedToBlock (env.textToDom testCase.xml)
         (env.domToBlock genUid (env.textToDom testCase.xml) workspace),
       SerEvent.structureAsserted
         (env.domToBlock genUid (env.textToDom testCase.xml) workspace)
         (testCase.assertBlockStructure
           (env.domToBlock genUid (env.textToDom testCase.xml) workspace))] :=
  rfl

/-- C1 counterexample: a case whose `expectedXml` field is set — to the empty
string — yet whose round-trip callback asserts equality against the case's
`xml`, not against `expectedXml`. -/
theorem xmlRoundTrip_expectedXml_set_counterexample :
    exCaseEmptyExpected.expectedXml = some "" ∧
    assertedEqualExpected
        (createXmlRoundTripTestCallback exEnv exCaseEmptyExpected () (fun _ => "1")) =
      some exCaseEmptyExpected.xml ∧
    exCaseEmptyExpected.xml ≠ "" :=
  ⟨rfl, rfl, by decide⟩

/-- C1 (amended): For every serialization test case, the round-trip callback
parses `xml` to a block, serializes it back to pretty-printed text, and
asserts that text equal to `expectedXml` when that field is set to a
non-empty string, and equal to `xml` when `expectedXml` is unset or empty. -/
theorem xmlRoundTrip_callback_structure {Dom Block Workspace : Type}
    (env : BlocklyEnv Dom Block Workspace)
    (testCase : SerializationTestCase Block)
    (workspace : Workspace) (genUid : GenUidFn) :
    createXmlRoundTripTestCallback env testCase workspace genUid =
      [SerEvent.parsedText testCase.xml (env.textToDom testCase.xml),
       SerEvent.convertedToBlock (env.textToDom testCase.xml)
         (env.domToBlock genUid (env.textToDom testCase.xml) workspace),
       SerEvent.serializedBlock
         (env.domToBlock genUid (env.textToDom testCase.xml) workspace)
         (env.blockToDom
           (env.domToBlock genUid (env.textToDom testCase.xml) workspace)),
       SerEvent.prettyPrinted
         (env.blockToDom
           (env.domToBlock genUid (env.textToDom testCase.xml) workspace))
         (roundTripText env workspace genUid testCase.xml),
       SerEvent.asserted (Assertion.equal
         (roundTripText env workspace genUid testCase.xml)
         (match testCase.expectedXml with
          | some s => if s = "" then testCase.xml else s
          | none => testCase.xml))] := by
  cases h : testCase.expectedXml <;>
    simp [createXmlRoundTripTestCallback, roundTripText, jsOrString, h]

/-- C9: For every serialization test case whose `expectedXml` is falsy —
`undefined` or the empty string — the round-trip callback compares the
generated xml against the case's `xml` field. -/
theorem xmlRoundTrip_falsy_expectedXml_defaults_to_xml {Dom Block Workspace : Type}
    (env : BlocklyEnv Dom Block Workspace)
    (testCase : SerializationTestCase Block)
    (workspace : Workspace) (genUid : GenUidFn)
    (h : testCase.expectedXml = none ∨ testCase.expectedXml = some "") :
    assertedEqualExpected
        (createXmlRoundTripTestCallback env testCase workspace genUid) =
      some testCase.xml := by
  rcases h with h | h <;>
    simp [createXmlRoundTripTestCallback, assertedEqualExpected, jsOrString, h]

/-- Witness for C9 at a concrete environment, with both falsy shapes of
`expectedXml`. -/
theorem xmlRoundTrip_falsy_expectedXml_defaults_to_xml_witness :
    (exCaseEmptyExpected.expectedXml = none ∨
      exCaseEmptyExpected.expectedXml = some "") ∧
    assertedEqualExpected
        (createXmlRoundTripTestCallback exEnv exCaseEmptyExpected () (fun _ => "1")) =
      some exCaseEmptyExpected.xml :=
  ⟨Or.inr rfl,
   xmlRoundTrip_falsy_expectedXml_defaults_to_xml exEnv exCaseEmptyExpected ()
     (fun _ => "1") (Or.inr rfl)⟩

/-! ## Round-trip idempotence -/

/-- C8 counterexample: an environment and a serialization test case whose
round-trip assertion passes (the serialized output equals the case's set
`expectedXml`), yet applying the round trip a second time changes the
output. Nothing in the helpers forces a second application to be stable. -/
theorem roundTrip_twice_unstable_counterexample :
    assertedEqualExpected
        (createXmlRoundTripTestCallback exEnvGrow exCaseGrow () (fun _ => "1")) =
      some (roundTripText exEnvGrow () (fun _ => "1") exCaseGrow.xml) ∧
    roundTripText exEnvGrow () (fun _ => "1")
        (roundTripText exEnvGrow () (fun _ => "1") exCaseGrow.xml) ≠
      roundTripText exEnvGrow () (fun _ => "1") exCaseGrow.xml :=
  ⟨rfl, by decide⟩

/-- C8 (amended): For every serialization test case whose `expectedXml` is
unset (or empty) and whose round-trip assertion holds — the serialized output
equals the value the callback compares it against — the round trip is stable
under a second application: parse-serialize-parse-serialize returns the
output of the first parse-serialize. -/
theorem roundTrip_twice_stable_when_expected_unset {Dom Block Workspace : Type}
    (env : BlocklyEnv Dom Block Workspace) (workspace : Workspace)
    (genUid : GenUidFn) (testCase : SerializationTestCase Block)
    (hpass : roundTripText env workspace genUid testCase.xml =
      jsOrString testCase.expectedXml testCase.xml)
    (hfalsy : testCase.expectedXml = none ∨ testCase.expectedXml = some "") :
    roundTripText env workspace genUid
        (roundTripText env workspace genUid testCase.xml) =
      roundTripText env workspace genUid testCase.xml := by
  have hxml : roundTripText env workspace genUid testCase.xml = testCase.xml := by
    rcases hfalsy with h | h <;> simpa [jsOrString, h] using hpass
  rw [hxml]
  exact hxml

/-- Witness for the amended C8 at the identity environment and a case
without `expectedXml`. -/
theorem roundTrip_twice_stable_when_expected_unset_witness :
    (roundTripText exEnv () (fun _ => "1") exCaseNoExpected.xml =
      jsOrString exCaseNoExpected.expectedXml exCaseNoExpected.xml) ∧
    (exCaseNoExpected.expectedXml = none ∨
      exCaseNoExpected.expectedXml = some "") ∧
    roundTripText exEnv () (fun _ => "1")
        (roundTripText exEnv () (fun _ => "1") exCaseNoExpected.xml) =
      roundTripText exEnv () (fun _ => "1") exCaseNoExpected.xml :=
  ⟨rfl, Or.inl rfl,
   roundTrip_twice_stable_when_expected_unset exEnv () (fun _ => "1")
     exCaseNoExpected rfl (Or.inl rfl)⟩

/-! ## The genUid stub discipline -/

/-- Folding sinon's restore list leaves untouched every slot that no restore
entry targets. -/
theorem foldl_update_not_mem (L : List (Target × GenUidFn)) (g : Target → GenUidFn)
    (t : Target) (h : t ∉ L.map Prod.fst) :
    (L.foldl (fun g p => Function.update g p.1 p.2) g) t = g t := by
  induction L generalizing g with
  | nil => rfl
  | cons q rest ih =>
    simp only [List.map_cons, List.mem_cons, not_or] at h
    rw [List.foldl_cons, ih _ h.2, Function.update_noteq h.1]

/-- Folding sinon's restore list puts back the recorded original of every
entry, when no two entries target the same slot. -/
theorem foldl_update_mem_nodup (L : List (Target × GenUidFn)) (g : Target → GenUidFn)
    (hnodup : (L.map Prod.fst).Nodup) :
    ∀ p ∈ L, (L.foldl (fun g p => Function.update g p.1 p.2) g) p.1 = p.2 := by
  induction L generalizing g with
  | nil => intro p hp; cases hp
  | cons q rest ih =>
    simp only [List.map_cons, List.nodup_cons] at hnodup
    intro p hp
    rcases List.mem_cons.mp hp with rfl | hp
    · rw [List.foldl_cons, foldl_update_not_mem rest _ p.1 hnodup.1,
        Function.update_same]
    · exact ih _ hnodup.2 p hp

/-- Running one round-trip case from a state with no active stub restores the
state exactly: same slots, empty restore list. -/
theorem runRoundTripCase_stateAfter_of_no_stub {Dom Block Workspace : Type}
    (env : BlocklyEnv Dom Block Workspace) (workspace : Workspace)
    (testCase : SerializationTestCase Block) (s : SinonState)
    (h : s.undo = []) :
    (runRoundTripCase env workspace testCase s).stateAfter.slots = s.slots ∧
    (runRoundTripCase env workspace testCase s).stateAfter.undo = [] := by
  constructor
  · simp only [runRoundTripCase, roundTripTeardown, sinonRestore, roundTripSetup,
      sinonStub, h, List.foldl_cons, List.foldl_nil]
    rw [Function.update_idem, Function.update_eq_self]
  · rfl

/-- The genUid function in effect while a round-trip case's callback runs is
the constant function returning `"1"`, whatever the prior state. -/
theorem runRoundTripCase_genUidDuring {Dom Block Workspace : Type}
    (env : BlocklyEnv Dom Block Workspace) (workspace : Workspace)
    (testCase : SerializationTestCase Block) (s : SinonState) :
    (runRoundTripCase env workspace testCase s).genUidDuring = fun _ => "1" := by
  simp only [runRoundTripCase, roundTripSetup, sinonStub, effectiveGenUid]
  exact Function.update_same _ _ _

/-- Sequential round-trip execution from a stub-free state: every case runs
with the constant-"1" genUid and hands back the original state. -/
theorem runRoundTripCases_spec {Dom Block Workspace : Type}
    (env : BlocklyEnv Dom Block Workspace) (workspace : Workspace)
    (testCases : List (SerializationTestCase Block)) (s : SinonState)
    (h : s.undo = []) :
    ∀ r ∈ runRoundTripCases env workspace testCases s,
      r.genUidDuring = (fun _ => "1") ∧
      r.stateAfter.slots = s.slots ∧ r.stateAfter.undo = [] := by
  induction testCases generalizing s with
  | nil => intro r hr; cases hr
  | cons tc rest ih =>
    intro r hr
    rcases List.mem_cons.mp hr with rfl | hr
    · exact ⟨runRoundTripCase_genUidDuring env workspace tc s,
        runRoundTripCase_stateAfter_of_no_stub env workspace tc s h⟩
    · have hafter := runRoundTripCase_stateAfter_of_no_stub env workspace tc s h
      have := ih (runRoundTripCase env workspace tc s).stateAfter hafter.2 r hr
      exact ⟨this.1, hafter.1 ▸ this.2.1, this.2.2⟩

/-- C3: Starting from a process state with no active stub, every round-trip
case of the serialization suite runs with the unique-id generator replaced by
the constant function returning "1", and the prior state — in particular the
original genUid implementation — is back in place after each case; the
xmlToBlock cases, which run outside the round-trip suite's hooks, see the
original genUid function. -/
theorem serialization_suite_genUid_discipline {Dom Block Workspace : Type}
    (env : BlocklyEnv Dom Block Workspace) (workspace : Workspace)
    (testCases : List (SerializationTestCase Block)) (s : SinonState)
    (h : s.undo = []) :
    (∀ r ∈ (runSerializationTestSuite env workspace testCases s).roundTripRuns,
      r.genUidDuring = (fun _ => "1") ∧
      r.stateAfter.slots = s.slots ∧ r.stateAfter.undo = []) ∧
    (∀ r ∈ (runSerializationTestSuite env workspace testCases s).xmlToBlockRuns,
      r.genUidDuring = effectiveGenUid env.hasIdGeneratorTestOnly s) := by
  constructor
  · exact runRoundTripCases_spec env workspace testCases s h
  · intro r hr
    rcases List.mem_map.mp hr with ⟨tc, _, rfl⟩
    rfl

/-- Witness for C3: one round-trip case over the identity environment,
starting from a stub-free state. -/
theorem serialization_suite_genUid_discipline_witness :
    exState.undo = [] ∧
    ((∀ r ∈ (runSerializationTestSuite exEnv () [exCaseNoExpected]
        exState).roundTripRuns,
      r.genUidDuring = (fun _ => "1") ∧
      r.stateAfter.slots = exState.slots ∧ r.stateAfter.undo = []) ∧
    (∀ r ∈ (runSerializationTestSuite exEnv () [exCaseNoExpected]
        exState).xmlToBlockRuns,
      r.genUidDuring = effectiveGenUid exEnv.hasIdGeneratorTestOnly exState)) :=
  ⟨rfl, serialization_suite_genUid_discipline exEnv () [exCaseNoExpected] exState rfl⟩

/-- C10: The round-trip teardown's `sinon.restore()` restores every active
stub, not only the genUid stub installed by setup: from a state whose restore
list targets pairwise-distinct slots, none of them the genUid slot, running
one case empties the restore list, puts back the recorded original of every
foreign stub, and returns the genUid slot to its pre-setup value. -/
theorem roundTrip_teardown_restores_all_stubs {Dom Block Workspace : Type}
    (env : BlocklyEnv Dom Block Workspace) (workspace : Workspace)
    (testCase : SerializationTestCase Block) (s : SinonState)
    (hnodup : (s.undo.map Prod.fst).Nodup)
    (hmem : genUidTarget env.hasIdGeneratorTestOnly ∉ s.undo.map Prod.fst) :
    (runRoundTripCase env workspace testCase s).stateAfter.undo = [] ∧
    (∀ p ∈ s.undo,
      (runRoundTripCase env workspace testCase s).stateAfter.slots p.1 = p.2) ∧
    (runRoundTripCase env workspace testCase s).stateAfter.slots
        (genUidTarget env.hasIdGeneratorTestOnly) =
      s.slots (genUidTarget env.hasIdGeneratorTestOnly) := by
  have hslots : (runRoundTripCase env workspace testCase s).stateAfter.slots =
      s.undo.foldl (fun g p => Function.update g p.1 p.2) s.slots := by
    simp only [runRoundTripCase, roundTripTeardown, sinonRestore, roundTripSetup,
      sinonStub, List.foldl_cons]
    rw [Function.update_idem, Function.update_eq_self]
  refine ⟨rfl, ?_, ?_⟩
  · intro p hp
    rw [hslots]
    exact foldl_update_mem_nodup s.undo s.slots hnodup p hp
  · rw [hslots]
    exact foldl_update_not_mem s.undo s.slots _ hmem

/-- Witness for C10: a state carrying one foreign stub on an unrelated slot;
after the case it is restored and no stub remains active. -/
theorem roundTrip_teardown_restores_all_stubs_witness :
    (exStateForeign.undo.map Prod.fst).Nodup ∧
    genUidTarget exEnv.hasIdGeneratorTestOnly ∉ exStateForeign.undo.map Prod.fst ∧
    ((runRoundTripCase exEnv () exCaseNoExpected exStateForeign).stateAfter.undo = [] ∧
    (∀ p ∈ exStateForeign.undo,
      (runRoundTripCase exEnv () exCaseNoExpected
        exStateForeign).stateAfter.slots p.1 = p.2) ∧
    (runRoundTripCase exEnv () exCaseNoExpected exStateForeign).stateAfter.slots
        (genUidTarget exEnv.hasIdGeneratorTestOnly) =
      exStateForeign.slots (genUidTarget exEnv.hasIdGeneratorTestOnly)) :=
  ⟨by simp [exStateForeign], by simp [exStateForeign, exEnv, genUidTarget],
   roundTrip_teardown_restores_all_stubs exEnv () exCaseNoExpected exStateForeign
     (by simp [exStateForeign]) (by simp [exStateForeign, exEnv, genUidTarget])⟩

end BlockTestHelpers
